import Mathlib

/-!
Verification of the belief-update integrator of the `precisionlocked`
repository against its natural-language specification.

The repository contains two near-duplicate implementations:

* `src/active_inference_agent.py` (modelled below in namespace `AIA`):
  factor-1 gradient convention, no clamping, `update_belief` returns the
  updated belief, the observation is stored by `observe` before updating.
* `src/src/trauma_agent.py` (modelled below in namespace `TA`):
  factor-2 gradient convention, unconditional clamping of the belief to
  [0, 1] after every step, `update_belief` takes the observation and a
  step count, chooses its step size from the current prior precision and
  returns `None`.

All numerics are embedded as rational numbers; limits are taken after
casting to the reals.
-/

/-- The specification's construction-time error taxonomy.  Neither
implementation in the source ever raises it: both constructors are plain
field assignments with no validation. -/
inductive PError where
  | invalidParameter
deriving DecidableEq

namespace AIA

/-- State of `ActiveInferenceAgent` in `src/active_inference_agent.py`.
`observation` is `none` until `observe` is first called (in Python the
attribute does not exist before that, and `update_belief` would fail).
Each `history` entry records `(mu, pi_prior, mu_dot)` as the code logs. -/
structure Agent where
  mu : ℚ
  eta : ℚ
  pi_prior_base : ℚ
  pi_sensory_base : ℚ
  pi_prior : ℚ
  pi_sensory : ℚ
  dt : ℚ
  observation : Option ℚ
  history : List (ℚ × ℚ × ℚ)
deriving DecidableEq

/-- `__init__`: pure field assignment, no validation, hence always `ok`.
The Python default for `time_step` is `0.001`. -/
def init (prior_mean prior_precision_val sensory_precision_val time_step : ℚ) :
    Except PError Agent :=
  Except.ok
    { mu := prior_mean
      eta := prior_mean
      pi_prior_base := prior_precision_val
      pi_sensory_base := sensory_precision_val
      pi_prior := prior_precision_val
      pi_sensory := sensory_precision_val
      dt := time_step
      observation := none
      history := [] }

/-- `observe`: stores the sensory input. -/
def observe (sensory_input : ℚ) (s : Agent) : Agent :=
  { s with observation := some sensory_input }

/-- `update_belief`: one gradient step on the variational free energy,
returning the updated belief together with the new state.  `none` models
the Python `AttributeError` raised when no observation was ever stored. -/
def update_belief (s : Agent) : Option (ℚ × Agent) :=
  match s.observation with
  | none => none
  | some o =>
    let sensory_pe := o - s.mu
    let prior_pe := s.mu - s.eta
    let weighted_sensory := s.pi_sensory * sensory_pe
    let weighted_prior := s.pi_prior * prior_pe
    let mu_dot := weighted_sensory - weighted_prior
    let mu1 := s.mu + s.dt * mu_dot
    let s1 : Agent := { s with mu := mu1, history := s.history ++ [(mu1, s.pi_prior, mu_dot)] }
    some (s1.mu, s1)

/-- `induce_trauma`: sets the prior precision to the fixed value 10000
and the step size to the fixed value 0.00005. -/
def induce_trauma (s : Agent) : Agent :=
  { s with pi_prior := 10000, dt := 5 / 100000 }

/-- `apply_annealing(beta)`: divides the BASE prior precision by `beta`,
multiplies the BASE sensory precision by 5, and sets `dt` to 0.01. -/
def apply_annealing (beta : ℚ) (s : Agent) : Agent :=
  { s with
      pi_prior := s.pi_prior_base / beta
      pi_sensory := s.pi_sensory_base * 5
      dt := 1 / 100 }

/-- One round of the driver loop: `agent.observe(o)` followed by
`agent.update_belief()`.  The `none` branch is unreachable because
`observe` has just stored the observation. -/
def stepObs (o : ℚ) (s : Agent) : Agent :=
  match update_belief (observe o s) with
  | some p => p.2
  | none => s

/-- The belief after `n` rounds of observe-then-update with a fixed
observation `o`. -/
def beliefSeq (o : ℚ) (s : Agent) (n : ℕ) : ℚ :=
  ((stepObs o)^[n] s).mu

end AIA

namespace TA

/-- State of `ActiveInferenceAgent` in `src/src/trauma_agent.py`. -/
structure Agent where
  mu : ℚ
  mu_prior : ℚ
  pi_prior : ℚ
  pi_likelihood : ℚ
  dt_normal : ℚ
  dt_trauma : ℚ
deriving DecidableEq

/-- `__init__`: pure field assignment, no validation.  The Python
defaults are `mu_prior = 0.9`, `pi_prior = 1`, `pi_likelihood = 1`,
`dt_normal = 0.01`, `dt_trauma = 0.00005`. -/
def init (mu_prior pi_prior pi_likelihood dt_normal dt_trauma : ℚ) : Agent :=
  { mu := mu_prior
    mu_prior := mu_prior
    pi_prior := pi_prior
    pi_likelihood := pi_likelihood
    dt_normal := dt_normal
    dt_trauma := dt_trauma }

/-- `free_energy_gradient`: factor-2 convention,
`-2(o - mu)*pi_likelihood + 2(mu - mu_prior)*pi_prior`. -/
def free_energy_gradient (s : Agent) (observation : ℚ) : ℚ :=
  let prediction_error := observation - s.mu
  let prior_divergence := s.mu - s.mu_prior
  let gradient := -2 * prediction_error * s.pi_likelihood + 2 * prior_divergence * s.pi_prior
  gradient

/-- `np.clip(x, lo, hi)` for `lo ≤ hi`. -/
def clip (x lo hi : ℚ) : ℚ :=
  min (max x lo) hi

/-- One iteration of the loop body in `update_belief`: descend along the
gradient and clamp the belief to [0, 1]. -/
def update_step (dt observation : ℚ) (s : Agent) : Agent :=
  let gradient := free_energy_gradient s observation
  { s with mu := clip (s.mu - dt * gradient) 0 1 }

/-- The step size the code selects at the top of `update_belief`:
`dt_trauma` exactly when `pi_prior > 100`, else `dt_normal`. -/
def effective_dt (s : Agent) : ℚ :=
  if 100 < s.pi_prior then s.dt_trauma else s.dt_normal

/-- `update_belief(observation, steps)`: selects the step size once from
the current prior precision, then runs `steps` clamped gradient steps.
The Python function returns `None`, modelled by the `none` component. -/
def update_belief (observation : ℚ) (steps : ℕ) (s : Agent) : Option ℚ × Agent :=
  (none, (update_step (effective_dt s) observation)^[steps] s)

/-- `induce_trauma(pi_trauma)`: sets the prior precision to the target
and changes nothing else (console printing is ignored). -/
def induce_trauma (pi_trauma : ℚ) (s : Agent) : Agent :=
  { s with pi_prior := pi_trauma }

/-- `therapeutic_annealing(pi_target)`: sets the prior precision to the
target and changes nothing else (console printing is ignored). -/
def therapeutic_annealing (pi_target : ℚ) (s : Agent) : Agent :=
  { s with pi_prior := pi_target }

end TA

/-- The fixed point named `belief*` by the specification:
`(sensory_precision * o + prior_precision * eta) / (sensory_precision + prior_precision)`. -/
def beliefStar (pi_sensory pi_prior o eta : ℚ) : ℚ :=
  (pi_sensory * o + pi_prior * eta) / (pi_sensory + pi_prior)

namespace AIA

lemma stepObs_mu (o : ℚ) (s : Agent) :
    (stepObs o s).mu = s.mu + s.dt * (s.pi_sensory * (o - s.mu) - s.pi_prior * (s.mu - s.eta)) :=
  rfl

lemma stepObs_eta (o : ℚ) (s : Agent) : (stepObs o s).eta = s.eta := rfl

lemma stepObs_dt (o : ℚ) (s : Agent) : (stepObs o s).dt = s.dt := rfl

lemma stepObs_pi_sensory (o : ℚ) (s : Agent) : (stepObs o s).pi_sensory = s.pi_sensory := rfl

lemma stepObs_pi_prior (o : ℚ) (s : Agent) : (stepObs o s).pi_prior = s.pi_prior := rfl

/-- The generative-model parameters are untouched by the driver loop. -/
lemma iter_params (o : ℚ) (s : Agent) (n : ℕ) :
    ((stepObs o)^[n] s).eta = s.eta ∧ ((stepObs o)^[n] s).dt = s.dt ∧
      ((stepObs o)^[n] s).pi_sensory = s.pi_sensory ∧
      ((stepObs o)^[n] s).pi_prior = s.pi_prior := by
  induction n with
  | zero => simp
  | succ n ih =>
    obtain ⟨h1, h2, h3, h4⟩ := ih
    rw [Function.iterate_succ_apply']
    exact ⟨by rw [stepObs_eta, h1], by rw [stepObs_dt, h2],
      by rw [stepObs_pi_sensory, h3], by rw [stepObs_pi_prior, h4]⟩

lemma beliefSeq_zero (o : ℚ) (s : Agent) : beliefSeq o s 0 = s.mu := rfl

lemma beliefSeq_succ (o : ℚ) (s : Agent) (n : ℕ) :
    beliefSeq o s (n + 1) = beliefSeq o s n +
      s.dt * (s.pi_sensory * (o - beliefSeq o s n) - s.pi_prior * (beliefSeq o s n - s.eta)) := by
  obtain ⟨h1, h2, h3, h4⟩ := iter_params o s n
  unfold beliefSeq
  rw [Function.iterate_succ_apply', stepObs_mu, h1, h2, h3, h4]

/-- One affine step, written relative to the fixed point. -/
lemma affine_step (o : ℚ) (s : Agent) (b : ℚ)
    (h : s.pi_sensory + s.pi_prior ≠ 0) :
    (b + s.dt * (s.pi_sensory * (o - b) - s.pi_prior * (b - s.eta)))
        - beliefStar s.pi_sensory s.pi_prior o s.eta
      = (1 - s.dt * (s.pi_sensory + s.pi_prior)) *
        (b - beliefStar s.pi_sensory s.pi_prior o s.eta) := by
  have hF : beliefStar s.pi_sensory s.pi_prior o s.eta * (s.pi_sensory + s.pi_prior)
      = s.pi_sensory * o + s.pi_prior * s.eta := by
    unfold beliefStar
    field_simp
  linear_combination (-s.dt) * hF

/-- The deviation from the fixed point is an exact geometric sequence. -/
lemma beliefSeq_geom (o : ℚ) (s : Agent)
    (h : s.pi_sensory + s.pi_prior ≠ 0) (n : ℕ) :
    beliefSeq o s n - beliefStar s.pi_sensory s.pi_prior o s.eta
      = (1 - s.dt * (s.pi_sensory + s.pi_prior)) ^ n *
        (s.mu - beliefStar s.pi_sensory s.pi_prior o s.eta) := by
  induction n with
  | zero => simp [beliefSeq_zero]
  | succ n ih =>
    rw [beliefSeq_succ, affine_step o s _ h, ih, pow_succ]
    ring

end AIA

namespace TA

lemma update_step_mu (dt o : ℚ) (s : Agent) :
    (update_step dt o s).mu =
      clip (s.mu - dt * (-2 * (o - s.mu) * s.pi_likelihood + 2 * (s.mu - s.mu_prior) * s.pi_prior)) 0 1 :=
  rfl

lemma update_step_mu_prior (dt o : ℚ) (s : Agent) : (update_step dt o s).mu_prior = s.mu_prior := rfl

lemma update_step_pi_prior (dt o : ℚ) (s : Agent) : (update_step dt o s).pi_prior = s.pi_prior := rfl

lemma update_step_pi_likelihood (dt o : ℚ) (s : Agent) :
    (update_step dt o s).pi_likelihood = s.pi_likelihood := rfl

/-- All fields other than the belief are untouched by the loop body. -/
lemma iter_fields (d o : ℚ) (s : Agent) (n : ℕ) :
    ((update_step d o)^[n] s).mu_prior = s.mu_prior ∧
      ((update_step d o)^[n] s).pi_prior = s.pi_prior ∧
      ((update_step d o)^[n] s).pi_likelihood = s.pi_likelihood := by
  induction n with
  | zero => simp
  | succ n ih =>
    obtain ⟨h1, h2, h3⟩ := ih
    rw [Function.iterate_succ_apply']
    exact ⟨by rw [update_step_mu_prior, h1], by rw [update_step_pi_prior, h2],
      by rw [update_step_pi_likelihood, h3]⟩

lemma clip_nonneg (x : ℚ) : 0 ≤ clip x 0 1 :=
  le_min (le_max_right x 0) zero_le_one

lemma clip_le_one (x : ℚ) : clip x 0 1 ≤ 1 :=
  min_le_right _ _

lemma clip_of_one_le (x : ℚ) (h : 1 ≤ x) : clip x 0 1 = 1 := by
  unfold clip
  rw [max_eq_left (le_trans zero_le_one h), min_eq_right h]

lemma clip_of_nonpos (x : ℚ) (h : x ≤ 0) : clip x 0 1 = 0 := by
  unfold clip
  rw [max_eq_right h, min_eq_left zero_le_one]

end TA

/-- A sequence that is constant from some index on converges to that
constant. -/
lemma tendsto_of_eventually_const {f : ℕ → ℝ} {c : ℝ} (N : ℕ)
    (h : ∀ n, N ≤ n → f n = c) :
    Filter.Tendsto f Filter.atTop (nhds c) := by
  have heq : f =ᶠ[Filter.atTop] fun _ => c :=
    Filter.eventually_atTop.2 ⟨N, h⟩
  exact Filter.Tendsto.congr' heq.symm tendsto_const_nhds

/-- Claim C1: one update step computes the sensory and prior errors,
forms the gradient `pi_sensory * sensory_error - pi_prior * prior_error`
(with the trauma implementation using the documented factor-2 convention
and clamping to [0, 1]), Euler-integrates the belief, the step is aligned
with the direction that decreases the squared-error objective (the
product of the displacement with the gradient is `dt` times a square),
and `steps = n` applies the step `n` times in sequence. -/
theorem update_rule_formula (s : AIA.Agent) (o : ℚ) (u : TA.Agent) (d : ℚ) (n : ℕ) :
    (AIA.stepObs o s).mu
        = s.mu + s.dt * (s.pi_sensory * (o - s.mu) - s.pi_prior * (s.mu - s.eta))
      ∧ ((AIA.stepObs o s).mu - s.mu) *
          (s.pi_sensory * (o - s.mu) - s.pi_prior * (s.mu - s.eta))
        = s.dt * (s.pi_sensory * (o - s.mu) - s.pi_prior * (s.mu - s.eta)) ^ 2
      ∧ (TA.update_step d o u).mu
        = TA.clip (u.mu + d * (2 * (u.pi_likelihood * (o - u.mu))
            - 2 * (u.pi_prior * (u.mu - u.mu_prior)))) 0 1
      ∧ (TA.update_belief o n u).2 = (TA.update_step (TA.effective_dt u) o)^[n] u := by
  refine ⟨AIA.stepObs_mu o s, ?_, ?_, rfl⟩
  · rw [AIA.stepObs_mu]
    ring
  · have h : u.mu - d * (-2 * (o - u.mu) * u.pi_likelihood
        + 2 * (u.mu - u.mu_prior) * u.pi_prior)
        = u.mu + d * (2 * (u.pi_likelihood * (o - u.mu))
            - 2 * (u.pi_prior * (u.mu - u.mu_prior))) := by ring
    rw [TA.update_step_mu, h]

/-- Claim C2, counterexample: constructing with `step_size = 0`, or with
`prior_precision = -1`, does NOT raise `InvalidParameter` — both
constructions succeed, contrary to the claim. -/
theorem construction_never_rejects_counterexample :
    AIA.init 1 10 2 0 ≠ Except.error PError.invalidParameter
      ∧ AIA.init 1 (-1) 2 (1 / 1000) ≠ Except.error PError.invalidParameter := by
  constructor <;> simp [AIA.init]

/-- Claim C2, amended: construction performs no validation in either
implementation; every argument tuple (including `step_size ≤ 0` and
negative precisions) constructs successfully, and `InvalidParameter` is
never raised. -/
theorem construction_never_rejects
    (prior_mean prior_precision_val sensory_precision_val time_step : ℚ) :
    AIA.init prior_mean prior_precision_val sensory_precision_val time_step
      ≠ Except.error PError.invalidParameter := by
  simp [AIA.init]

/-- Claim C5, counterexample: in the trauma implementation,
`induce_trauma 50` sets the prior precision to the target but does not
shrink any step size: both stored step sizes are unchanged and the step
size an update would use stays the normal `0.01`, not the small `5e-5`. -/
theorem induce_regime_counterexample :
    (TA.induce_trauma 50 (TA.init (9/10) 1 1 (1/100) (1/20000))).pi_prior = 50
      ∧ (TA.induce_trauma 50 (TA.init (9/10) 1 1 (1/100) (1/20000))).dt_normal
          = (TA.init (9/10) 1 1 (1/100) (1/20000)).dt_normal
      ∧ (TA.induce_trauma 50 (TA.init (9/10) 1 1 (1/100) (1/20000))).dt_trauma
          = (TA.init (9/10) 1 1 (1/100) (1/20000)).dt_trauma
      ∧ TA.effective_dt (TA.induce_trauma 50 (TA.init (9/10) 1 1 (1/100) (1/20000))) = 1/100
      ∧ ¬ TA.effective_dt (TA.induce_trauma 50 (TA.init (9/10) 1 1 (1/100) (1/20000)))
          = 1/20000 := by
  refine ⟨rfl, rfl, rfl, ?_, ?_⟩ <;>
    norm_num [TA.effective_dt, TA.induce_trauma, TA.init]

/-- Claim C5, amended: in `active_inference_agent`, `induce_trauma`
takes no target and sets the prior precision to the fixed value 10000
and the step size to the fixed value 5e-5, leaving the belief, anchor
and sensory precision unchanged; in `trauma_agent`, `induce_trauma t`
sets the prior precision to `t` and leaves every other field, including
both stored step sizes, unchanged (the step size used by updates changes
only through the `pi_prior > 100` threshold).  Both operations are
idempotent. -/
theorem induce_regime_behavior (s : AIA.Agent) (u : TA.Agent) (t : ℚ) :
    (AIA.induce_trauma s).pi_prior = 10000
      ∧ (AIA.induce_trauma s).dt = 5 / 100000
      ∧ (AIA.induce_trauma s).mu = s.mu
      ∧ (AIA.induce_trauma s).eta = s.eta
      ∧ (AIA.induce_trauma s).pi_sensory = s.pi_sensory
      ∧ AIA.induce_trauma (AIA.induce_trauma s) = AIA.induce_trauma s
      ∧ (TA.induce_trauma t u).pi_prior = t
      ∧ (TA.induce_trauma t u).mu = u.mu
      ∧ (TA.induce_trauma t u).mu_prior = u.mu_prior
      ∧ (TA.induce_trauma t u).pi_likelihood = u.pi_likelihood
      ∧ (TA.induce_trauma t u).dt_normal = u.dt_normal
      ∧ (TA.induce_trauma t u).dt_trauma = u.dt_trauma
      ∧ TA.induce_trauma t (TA.induce_trauma t u) = TA.induce_trauma t u :=
  ⟨rfl, rfl, rfl, rfl, rfl, rfl, rfl, rfl, rfl, rfl, rfl, rfl, rfl⟩

/-- Claim C6: the prior mean (`eta` in the first implementation,
`mu_prior` in the second) is unchanged by every public operation:
observing, updating (any observation and step count), inducing the
high-precision regime, and relaxing it. -/
theorem prior_mean_immutable (s : AIA.Agent) (o beta : ℚ) (u : TA.Agent)
    (obs t : ℚ) (n : ℕ) :
    (AIA.observe o s).eta = s.eta
      ∧ (AIA.stepObs o s).eta = s.eta
      ∧ (AIA.induce_trauma s).eta = s.eta
      ∧ (AIA.apply_annealing beta s).eta = s.eta
      ∧ (TA.update_belief obs n u).2.mu_prior = u.mu_prior
      ∧ (TA.induce_trauma t u).mu_prior = u.mu_prior
      ∧ (TA.therapeutic_annealing t u).mu_prior = u.mu_prior :=
  ⟨rfl, rfl, rfl, rfl, (TA.iter_fields (TA.effective_dt u) obs u n).1, rfl, rfl⟩

/-- Claim C7, counterexample: in the trauma implementation,
`update_belief` returns `None` (here the `none` component), not the
updated belief: at the default construction, one update step with
observation 0 returns nothing, while the post-state belief exists. -/
theorem update_return_counterexample :
    ¬ (TA.update_belief 0 1 (TA.init (9/10) 1 1 (1/100) (1/20000))).1
        = some ((TA.update_belief 0 1 (TA.init (9/10) 1 1 (1/100) (1/20000))).2.mu) := by
  simp [TA.update_belief]

/-- Claim C7, amended: in `active_inference_agent`, `update_belief`
returns the updated belief — its return value equals the belief field of
the post-update state; in `trauma_agent`, `update_belief` returns
`None`, so the updated belief is only available through the state. -/
theorem update_return_value (s : AIA.Agent) (o : ℚ) (u : TA.Agent) (obs : ℚ) (n : ℕ) :
    AIA.update_belief (AIA.observe o s) = some ((AIA.stepObs o s).mu, AIA.stepObs o s)
      ∧ (TA.update_belief obs n u).1 = none :=
  ⟨rfl, rfl⟩

/-- Claim C10: in the trauma implementation, the step size of an update
is selected at call time from the current prior precision — `dt_trauma`
exactly when `pi_prior > 100`, else `dt_normal` — and the regime
operations change the used step size only through this threshold: they
leave both stored step sizes unchanged, and updating leaves the prior
precision unchanged. -/
theorem adaptive_dt_selection (s : TA.Agent) (o t : ℚ) (n : ℕ) :
    TA.effective_dt s = (if 100 < s.pi_prior then s.dt_trauma else s.dt_normal)
      ∧ (TA.update_belief o n s).2 = (TA.update_step (TA.effective_dt s) o)^[n] s
      ∧ (TA.update_belief o n s).2.pi_prior = s.pi_prior
      ∧ TA.effective_dt (TA.induce_trauma t s)
          = (if 100 < t then s.dt_trauma else s.dt_normal)
      ∧ TA.effective_dt (TA.therapeutic_annealing t s)
          = (if 100 < t then s.dt_trauma else s.dt_normal)
      ∧ (TA.induce_trauma t s).dt_normal = s.dt_normal
      ∧ (TA.induce_trauma t s).dt_trauma = s.dt_trauma
      ∧ (TA.therapeutic_annealing t s).dt_normal = s.dt_normal
      ∧ (TA.therapeutic_annealing t s).dt_trauma = s.dt_trauma :=
  ⟨rfl, rfl, (TA.iter_fields (TA.effective_dt s) o s n).2.1, rfl, rfl, rfl, rfl, rfl, rfl⟩

/-- A concrete first-implementation agent used for the annealing claim:
constructed with base prior precision 10 and base sensory precision 2. -/
def agentC8 : AIA.Agent :=
  { mu := 1, eta := 1, pi_prior_base := 10, pi_sensory_base := 2,
    pi_prior := 10, pi_sensory := 2, dt := 1 / 100,
    observation := none, history := [] }

/-- Claim C8, counterexample: `apply_annealing` divides the BASE prior
precision, so a second call with the same divisor `2 > 1` leaves the
prior precision at 5 — NOT strictly smaller than before the call, contrary
to the claim. -/
theorem annealing_counterexample :
    (1 : ℚ) < 2
      ∧ (AIA.apply_annealing 2 agentC8).pi_prior = 5
      ∧ (AIA.apply_annealing 2 (AIA.apply_annealing 2 agentC8)).pi_prior = 5
      ∧ ¬ (AIA.apply_annealing 2 (AIA.apply_annealing 2 agentC8)).pi_prior
          < (AIA.apply_annealing 2 agentC8).pi_prior := by
  norm_num [AIA.apply_annealing, agentC8]

/-- Claim C8, amended: in `active_inference_agent`, `apply_annealing beta`
sets the prior precision to the BASE prior precision divided by `beta`
(strictly below the base for `beta > 1` and a positive base, though not
necessarily below the current value), multiplies the base sensory
precision by 5, and restores the step size to 0.01, which is larger than
the stiff-regime value 5e-5 set by `induce_trauma`; in `trauma_agent`,
`therapeutic_annealing` sets the prior precision directly to the target
and changes nothing else — in particular it touches neither the sensory
precision nor any step size. -/
theorem annealing_behavior (beta : ℚ) (s : AIA.Agent)
    (hb : 1 < beta) (hbase : 0 < s.pi_prior_base) :
    (AIA.apply_annealing beta s).pi_prior = s.pi_prior_base / beta
      ∧ (AIA.apply_annealing beta s).pi_prior < s.pi_prior_base
      ∧ (AIA.apply_annealing beta s).pi_sensory = s.pi_sensory_base * 5
      ∧ (AIA.induce_trauma s).dt < (AIA.apply_annealing beta s).dt
      ∧ ∀ (u : TA.Agent) (t : ℚ),
          (TA.therapeutic_annealing t u).pi_prior = t
            ∧ (TA.therapeutic_annealing t u).pi_likelihood = u.pi_likelihood
            ∧ (TA.therapeutic_annealing t u).dt_normal = u.dt_normal
            ∧ (TA.therapeutic_annealing t u).dt_trauma = u.dt_trauma
            ∧ (TA.therapeutic_annealing t u).mu = u.mu := by
  refine ⟨rfl, ?_, rfl, ?_, fun u t => ⟨rfl, rfl, rfl, rfl, rfl⟩⟩
  · exact div_lt_self hbase hb
  · show (5 / 100000 : ℚ) < 1 / 100
    norm_num

/-- Claim C8, witness: the amended annealing behaviour at the concrete
agent `agentC8` with divisor 2. -/
theorem annealing_behavior_witness :
    ((1 : ℚ) < 2 ∧ 0 < agentC8.pi_prior_base)
      ∧ ((AIA.apply_annealing 2 agentC8).pi_prior = agentC8.pi_prior_base / 2
          ∧ (AIA.apply_annealing 2 agentC8).pi_prior < agentC8.pi_prior_base
          ∧ (AIA.apply_annealing 2 agentC8).pi_sensory = agentC8.pi_sensory_base * 5
          ∧ (AIA.induce_trauma agentC8).dt < (AIA.apply_annealing 2 agentC8).dt
          ∧ ∀ (u : TA.Agent) (t : ℚ),
              (TA.therapeutic_annealing t u).pi_prior = t
                ∧ (TA.therapeutic_annealing t u).pi_likelihood = u.pi_likelihood
                ∧ (TA.therapeutic_annealing t u).dt_normal = u.dt_normal
                ∧ (TA.therapeutic_annealing t u).dt_trauma = u.dt_trauma
                ∧ (TA.therapeutic_annealing t u).mu = u.mu) :=
  ⟨⟨by norm_num, by norm_num [agentC8]⟩,
    annealing_behavior 2 agentC8 (by norm_num) (by norm_num [agentC8])⟩

/-- A trauma-implementation agent whose initial belief 2 lies outside
[0, 1] (the constructor accepts any prior mean). -/
def agentC9 : TA.Agent := TA.init 2 1 1 (1/100) (1/20000)

/-- Claim C9, counterexample: with `steps = 0` the clamping loop body
never runs, so a belief that starts outside [0, 1] is still outside
[0, 1] after the call — the claim fails for the step count 0. -/
theorem clamp_counterexample :
    ¬ (TA.update_belief 0 0 agentC9).2.mu ≤ 1 := by
  norm_num [TA.update_belief, agentC9, TA.init]

/-- Claim C9, amended: in the trauma implementation, for every state,
every parameter choice, every observation and every step count of AT
LEAST ONE, the belief lies in [0, 1] after `update_belief` — the final
loop iteration clamps unconditionally.  (With `steps = 0` the loop body
never runs and the belief is whatever it was before.) -/
theorem clamp_invariant (o : ℚ) (n : ℕ) (s : TA.Agent) (h : 1 ≤ n) :
    0 ≤ (TA.update_belief o n s).2.mu ∧ (TA.update_belief o n s).2.mu ≤ 1 := by
  cases n with
  | zero => exact absurd h (by norm_num)
  | succ m =>
    show 0 ≤ ((TA.update_step (TA.effective_dt s) o)^[m + 1] s).mu
      ∧ ((TA.update_step (TA.effective_dt s) o)^[m + 1] s).mu ≤ 1
    rw [Function.iterate_succ_apply', TA.update_step_mu]
    exact ⟨TA.clip_nonneg _, TA.clip_le_one _⟩

/-- Claim C9, witness: the amended clamp invariant at a concrete agent,
observation 0 and one step. -/
theorem clamp_invariant_witness :
    1 ≤ 1
      ∧ (0 ≤ (TA.update_belief 0 1 agentC9).2.mu
          ∧ (TA.update_belief 0 1 agentC9).2.mu ≤ 1) :=
  ⟨by norm_num, clamp_invariant 0 1 agentC9 (by norm_num)⟩

/-- A trauma-implementation agent with prior precision 0 and sensory
precision 1, used against the convergence claim with observation 100:
the stability rule holds but the clamp traps the belief at 1. -/
def agentC3 : TA.Agent := TA.init (9/10) 0 1 (1/100) (1/20000)

lemma agentC3_step (t : TA.Agent) (h1 : t.pi_prior = 0) (h2 : t.pi_likelihood = 1)
    (h3 : 0 ≤ t.mu) : (TA.update_step (1/100) 100 t).mu = 1 := by
  rw [TA.update_step_mu, h1, h2]
  have harg : t.mu - 1/100 * (-2 * (100 - t.mu) * 1 + 2 * (t.mu - t.mu_prior) * 0)
      = 2 + 49/50 * t.mu := by ring
  rw [harg]
  apply TA.clip_of_one_le
  linarith

lemma agentC3_locked (n : ℕ) (hn : 1 ≤ n) :
    ((TA.update_step (1/100) 100)^[n] agentC3).mu = 1 := by
  cases n with
  | zero => exact absurd hn (by norm_num)
  | succ m =>
    rw [Function.iterate_succ_apply']
    refine agentC3_step _ ?_ ?_ ?_
    · rw [(TA.iter_fields (1/100) 100 agentC3 m).2.1]; rfl
    · rw [(TA.iter_fields (1/100) 100 agentC3 m).2.2]; rfl
    · cases m with
      | zero => show (0:ℚ) ≤ agentC3.mu; norm_num [agentC3, TA.init]
      | succ k =>
        rw [Function.iterate_succ_apply', TA.update_step_mu]
        exact TA.clip_nonneg _

/-- Claim C3, counterexample: for the trauma implementation with prior
precision 0, sensory precision 1, step size 0.01 and observation 100,
the stability rule `step_size * (prior + sensory precision) < 2` holds
and the claimed fixed point is 100, yet the belief sequence converges to
the clamp boundary 1, not to the fixed point: the claim fails on this
implementation (its factor-2 gradient and unconditional clamping are not
accounted for). -/
theorem convergence_claim_counterexample :
    TA.effective_dt agentC3 * (agentC3.pi_prior + agentC3.pi_likelihood) < 2
      ∧ beliefStar agentC3.pi_likelihood agentC3.pi_prior 100 agentC3.mu_prior = 100
      ∧ ¬ Filter.Tendsto
          (fun n => (((TA.update_belief 100 n agentC3).2.mu : ℚ) : ℝ))
          Filter.atTop
          (nhds ((beliefStar agentC3.pi_likelihood agentC3.pi_prior 100 agentC3.mu_prior : ℚ) : ℝ)) := by
  have hdt : TA.effective_dt agentC3 = 1/100 := by
    norm_num [TA.effective_dt, agentC3, TA.init]
  have hb : (beliefStar agentC3.pi_likelihood agentC3.pi_prior 100 agentC3.mu_prior : ℚ)
      = 100 := by
    norm_num [beliefStar, agentC3, TA.init]
  refine ⟨by rw [hdt]; norm_num [agentC3, TA.init], hb, ?_⟩
  intro h
  have h1 : Filter.Tendsto
      (fun n => (((TA.update_belief 100 n agentC3).2.mu : ℚ) : ℝ))
      Filter.atTop (nhds 1) := by
    apply tendsto_of_eventually_const 1
    intro n hn
    have hmu : (TA.update_belief 100 n agentC3).2.mu = 1 := by
      show ((TA.update_step (TA.effective_dt agentC3) 100)^[n] agentC3).mu = 1
      rw [hdt]
      exact agentC3_locked n hn
    rw [hmu]
    norm_num
  have h2 := tendsto_nhds_unique h h1
  rw [hb] at h2
  norm_num at h2

/-- A trauma-implementation agent with prior precision 0 and sensory
precision 200: with step size 0.01 the stability rule is violated, yet
the clamp absorbs the overshoot and the belief settles at 0. -/
def agentC4 : TA.Agent := TA.init (9/10) 0 200 (1/100) (1/20000)

lemma agentC4_step (t : TA.Agent) (h1 : t.pi_prior = 0) (h2 : t.pi_likelihood = 200)
    (h3 : 0 ≤ t.mu) : (TA.update_step (1/100) 0 t).mu = 0 := by
  rw [TA.update_step_mu, h1, h2]
  have harg : t.mu - 1/100 * (-2 * (0 - t.mu) * 200 + 2 * (t.mu - t.mu_prior) * 0)
      = -3 * t.mu := by ring
  rw [harg]
  apply TA.clip_of_nonpos
  linarith

lemma agentC4_locked (n : ℕ) (hn : 1 ≤ n) :
    ((TA.update_step (1/100) 0)^[n] agentC4).mu = 0 := by
  cases n with
  | zero => exact absurd hn (by norm_num)
  | succ m =>
    rw [Function.iterate_succ_apply']
    refine agentC4_step _ ?_ ?_ ?_
    · rw [(TA.iter_fields (1/100) 0 agentC4 m).2.1]; rfl
    · rw [(TA.iter_fields (1/100) 0 agentC4 m).2.2]; rfl
    · cases m with
      | zero => show (0:ℚ) ≤ agentC4.mu; norm_num [agentC4, TA.init]
      | succ k =>
        rw [Function.iterate_succ_apply', TA.update_step_mu]
        exact TA.clip_nonneg _

/-- Claim C4, counterexample: for the trauma implementation with prior
precision 0, sensory precision 200 and step size 0.01, the divergence
condition `step_size * (prior + sensory precision) ≥ 2` holds and the
belief starts away from the fixed point, yet the belief sequence DOES
converge (the clamp absorbs the overshoot and the sequence settles at
the fixed point 0 after one step): the instability IS masked by
clamping, contrary to the claim. -/
theorem divergence_claim_counterexample :
    2 ≤ TA.effective_dt agentC4 * (agentC4.pi_prior + agentC4.pi_likelihood)
      ∧ agentC4.mu ≠ beliefStar agentC4.pi_likelihood agentC4.pi_prior 0 agentC4.mu_prior
      ∧ Filter.Tendsto
          (fun n => (((TA.update_belief 0 n agentC4).2.mu : ℚ) : ℝ))
          Filter.atTop
          (nhds ((beliefStar agentC4.pi_likelihood agentC4.pi_prior 0 agentC4.mu_prior : ℚ) : ℝ)) := by
  have hdt : TA.effective_dt agentC4 = 1/100 := by
    norm_num [TA.effective_dt, agentC4, TA.init]
  have hb : (beliefStar agentC4.pi_likelihood agentC4.pi_prior 0 agentC4.mu_prior : ℚ)
      = 0 := by
    norm_num [beliefStar, agentC4, TA.init]
  refine ⟨by rw [hdt]; norm_num [agentC4, TA.init], ?_, ?_⟩
  · rw [hb]
    norm_num [agentC4, TA.init]
  · rw [hb]
    have : ((0 : ℚ) : ℝ) = 0 := by norm_num
    rw [this]
    apply tendsto_of_eventually_const 1
    intro n hn
    have hmu : (TA.update_belief 0 n agentC4).2.mu = 0 := by
      show ((TA.update_step (TA.effective_dt agentC4) 0)^[n] agentC4).mu = 0
      rw [hdt]
      exact agentC4_locked n hn
    rw [hmu]
    norm_num

/-- Claim C3, amended: for the `active_inference_agent` implementation
(factor-1 convention, no clamping), for any fixed observation and any
state with positive step size, positive total precision and
`step_size * (prior_precision + sensory_precision) < 2`, the beliefs
produced by repeated observe-and-update calls converge to the fixed
point `belief* = (pi_sensory * o + pi_prior * eta) / (pi_sensory + pi_prior)`,
and `belief*` is a fixed point of a single update step.  (As the
counterexample shows, the claim fails for the trauma implementation,
whose factor-2 gradient doubles the effective step and whose clamp can
trap the belief away from `belief*`.) -/
theorem convergence_to_fixed_point (o : ℚ) (s : AIA.Agent)
    (hdt : 0 < s.dt) (hsum : 0 < s.pi_sensory + s.pi_prior)
    (hstab : s.dt * (s.pi_prior + s.pi_sensory) < 2) :
    Filter.Tendsto (fun n => ((AIA.beliefSeq o s n : ℚ) : ℝ)) Filter.atTop
        (nhds ((beliefStar s.pi_sensory s.pi_prior o s.eta : ℚ) : ℝ))
      ∧ (s.mu = beliefStar s.pi_sensory s.pi_prior o s.eta →
          (AIA.stepObs o s).mu = s.mu) := by
  have hne : s.pi_sensory + s.pi_prior ≠ 0 := ne_of_gt hsum
  constructor
  · have key : ∀ n : ℕ,
        ((AIA.beliefSeq o s n : ℚ) : ℝ)
          = ((beliefStar s.pi_sensory s.pi_prior o s.eta : ℚ) : ℝ)
            + ((1 - s.dt * (s.pi_sensory + s.pi_prior) : ℚ) : ℝ) ^ n
              * ((s.mu - beliefStar s.pi_sensory s.pi_prior o s.eta : ℚ) : ℝ) := by
      intro n
      have h := AIA.beliefSeq_geom o s hne n
      have h2 : AIA.beliefSeq o s n
          = beliefStar s.pi_sensory s.pi_prior o s.eta
            + (1 - s.dt * (s.pi_sensory + s.pi_prior)) ^ n
              * (s.mu - beliefStar s.pi_sensory s.pi_prior o s.eta) := by linarith
      rw [h2]
      push_cast
      ring
    have habsq : |(1 - s.dt * (s.pi_sensory + s.pi_prior) : ℚ)| < 1 := by
      have h1 : 0 < s.dt * (s.pi_sensory + s.pi_prior) := mul_pos hdt hsum
      have h2 : s.dt * (s.pi_sensory + s.pi_prior) < 2 := by nlinarith
      rw [abs_lt]
      constructor <;> linarith
    have habs : |((1 - s.dt * (s.pi_sensory + s.pi_prior) : ℚ) : ℝ)| < 1 := by
      exact_mod_cast habsq
    have hpow := tendsto_pow_atTop_nhds_zero_of_abs_lt_one habs
    have hlim : Filter.Tendsto
        (fun n : ℕ =>
          ((beliefStar s.pi_sensory s.pi_prior o s.eta : ℚ) : ℝ)
            + ((1 - s.dt * (s.pi_sensory + s.pi_prior) : ℚ) : ℝ) ^ n
              * ((s.mu - beliefStar s.pi_sensory s.pi_prior o s.eta : ℚ) : ℝ))
        Filter.atTop
        (nhds (((beliefStar s.pi_sensory s.pi_prior o s.eta : ℚ) : ℝ)
          + 0 * ((s.mu - beliefStar s.pi_sensory s.pi_prior o s.eta : ℚ) : ℝ))) :=
      tendsto_const_nhds.add (hpow.mul_const _)
    rw [zero_mul, add_zero] at hlim
    exact hlim.congr fun n => (key n).symm
  · intro hmu
    have h := AIA.affine_step o s (beliefStar s.pi_sensory s.pi_prior o s.eta) hne
    rw [AIA.stepObs_mu, hmu]
    linarith [h]

/-- A concrete first-implementation agent with unit precisions and step
size 0.01, well inside the stability region. -/
def agentC3w : AIA.Agent :=
  { mu := 1, eta := 1, pi_prior_base := 1, pi_sensory_base := 1,
    pi_prior := 1, pi_sensory := 1, dt := 1 / 100,
    observation := none, history := [] }

/-- Claim C3, witness: the amended convergence theorem instantiated at
`agentC3w` with observation 0. -/
theorem convergence_to_fixed_point_witness :
    (0 < agentC3w.dt ∧ 0 < agentC3w.pi_sensory + agentC3w.pi_prior
        ∧ agentC3w.dt * (agentC3w.pi_prior + agentC3w.pi_sensory) < 2)
      ∧ (Filter.Tendsto (fun n => ((AIA.beliefSeq 0 agentC3w n : ℚ) : ℝ)) Filter.atTop
            (nhds ((beliefStar agentC3w.pi_sensory agentC3w.pi_prior 0 agentC3w.eta : ℚ) : ℝ))
          ∧ (agentC3w.mu = beliefStar agentC3w.pi_sensory agentC3w.pi_prior 0 agentC3w.eta →
              (AIA.stepObs 0 agentC3w).mu = agentC3w.mu)) :=
  ⟨⟨by norm_num [agentC3w], by norm_num [agentC3w], by norm_num [agentC3w]⟩,
    convergence_to_fixed_point 0 agentC3w (by norm_num [agentC3w])
      (by norm_num [agentC3w]) (by norm_num [agentC3w])⟩

/-- The deviation from the fixed point never shrinks below its initial
size when the stability rule is violated. -/
lemma beliefSeq_deviation_lower (o : ℚ) (s : AIA.Agent)
    (hdt : 0 < s.dt) (hstab : 2 ≤ s.dt * (s.pi_prior + s.pi_sensory)) (n : ℕ) :
    |s.mu - beliefStar s.pi_sensory s.pi_prior o s.eta|
      ≤ |AIA.beliefSeq o s n - beliefStar s.pi_sensory s.pi_prior o s.eta| := by
  have hsum : 0 < s.pi_sensory + s.pi_prior := by
    by_contra hc
    push_neg at hc
    nlinarith
  have hne : s.pi_sensory + s.pi_prior ≠ 0 := ne_of_gt hsum
  have hgeom := AIA.beliefSeq_geom o s hne n
  have ha : 1 - s.dt * (s.pi_sensory + s.pi_prior) ≤ -1 := by nlinarith
  have habs1 : (1 : ℚ) ≤ |1 - s.dt * (s.pi_sensory + s.pi_prior)| := by
    rw [abs_of_nonpos (by linarith)]
    linarith
  have hpow : (1 : ℚ) ≤ |1 - s.dt * (s.pi_sensory + s.pi_prior)| ^ n := by
    calc (1 : ℚ) = 1 ^ n := (one_pow n).symm
    _ ≤ |1 - s.dt * (s.pi_sensory + s.pi_prior)| ^ n :=
        pow_le_pow_left₀ zero_le_one habs1 n
  rw [hgeom, abs_mul, abs_pow]
  calc |s.mu - beliefStar s.pi_sensory s.pi_prior o s.eta|
      = 1 * |s.mu - beliefStar s.pi_sensory s.pi_prior o s.eta| := (one_mul _).symm
    _ ≤ |1 - s.dt * (s.pi_sensory + s.pi_prior)| ^ n
          * |s.mu - beliefStar s.pi_sensory s.pi_prior o s.eta| :=
        mul_le_mul_of_nonneg_right hpow (abs_nonneg _)

/-- Consecutive beliefs stay at least `2 * |initial deviation|` apart
when the stability rule is violated. -/
lemma beliefSeq_gap_lower (o : ℚ) (s : AIA.Agent)
    (hdt : 0 < s.dt) (hstab : 2 ≤ s.dt * (s.pi_prior + s.pi_sensory)) (n : ℕ) :
    2 * |s.mu - beliefStar s.pi_sensory s.pi_prior o s.eta|
      ≤ |AIA.beliefSeq o s (n + 1) - AIA.beliefSeq o s n| := by
  have hsum : 0 < s.pi_sensory + s.pi_prior := by
    by_contra hc
    push_neg at hc
    nlinarith
  have hne : s.pi_sensory + s.pi_prior ≠ 0 := ne_of_gt hsum
  have g1 := AIA.beliefSeq_geom o s hne (n + 1)
  have g2 := AIA.beliefSeq_geom o s hne n
  have hdiff : AIA.beliefSeq o s (n + 1) - AIA.beliefSeq o s n
      = (1 - s.dt * (s.pi_sensory + s.pi_prior)) ^ n
        * (((1 - s.dt * (s.pi_sensory + s.pi_prior)) - 1)
          * (s.mu - beliefStar s.pi_sensory s.pi_prior o s.eta)) := by
    have e1 : AIA.beliefSeq o s (n + 1) - AIA.beliefSeq o s n
        = (1 - s.dt * (s.pi_sensory + s.pi_prior)) ^ (n + 1)
            * (s.mu - beliefStar s.pi_sensory s.pi_prior o s.eta)
          - (1 - s.dt * (s.pi_sensory + s.pi_prior)) ^ n
            * (s.mu - beliefStar s.pi_sensory s.pi_prior o s.eta) := by
      linarith
    rw [e1, pow_succ]
    ring
  have ha : 1 - s.dt * (s.pi_sensory + s.pi_prior) ≤ -1 := by nlinarith
  have habs1 : (1 : ℚ) ≤ |1 - s.dt * (s.pi_sensory + s.pi_prior)| := by
    rw [abs_of_nonpos (by linarith)]
    linarith
  have hpow : (1 : ℚ) ≤ |1 - s.dt * (s.pi_sensory + s.pi_prior)| ^ n := by
    calc (1 : ℚ) = 1 ^ n := (one_pow n).symm
    _ ≤ |1 - s.dt * (s.pi_sensory + s.pi_prior)| ^ n :=
        pow_le_pow_left₀ zero_le_one habs1 n
  have habs2 : (2 : ℚ) ≤ |(1 - s.dt * (s.pi_sensory + s.pi_prior)) - 1| := by
    rw [abs_of_nonpos (by linarith)]
    linarith
  rw [hdiff, abs_mul, abs_pow, abs_mul]
  calc 2 * |s.mu - beliefStar s.pi_sensory s.pi_prior o s.eta|
      = 1 * (2 * |s.mu - beliefStar s.pi_sensory s.pi_prior o s.eta|) := (one_mul _).symm
    _ ≤ |1 - s.dt * (s.pi_sensory + s.pi_prior)| ^ n
          * (2 * |s.mu - beliefStar s.pi_sensory s.pi_prior o s.eta|) :=
        mul_le_mul_of_nonneg_right hpow (by positivity)
    _ ≤ |1 - s.dt * (s.pi_sensory + s.pi_prior)| ^ n
          * (|(1 - s.dt * (s.pi_sensory + s.pi_prior)) - 1|
            * |s.mu - beliefStar s.pi_sensory s.pi_prior o s.eta|) :=
        mul_le_mul_of_nonneg_left
          (mul_le_mul_of_nonneg_right habs2 (abs_nonneg _)) (by positivity)

/-- Claim C4, amended: for the `active_inference_agent` implementation
(no clamping), with positive step size,
`step_size * (prior_precision + sensory_precision) ≥ 2` and a belief not
already at the fixed point, the belief sequence does not converge to any
real limit, and its distance from the fixed point never drops below the
initial distance.  (As the counterexample shows, the trauma
implementation violates the claim as stated: its clamp can absorb the
overshoot, so the instability CAN be masked by clamping there.) -/
theorem divergence_unclamped (o : ℚ) (s : AIA.Agent)
    (hdt : 0 < s.dt) (hstab : 2 ≤ s.dt * (s.pi_prior + s.pi_sensory))
    (hne : s.mu ≠ beliefStar s.pi_sensory s.pi_prior o s.eta) :
    (∀ L : ℝ, ¬ Filter.Tendsto (fun n => ((AIA.beliefSeq o s n : ℚ) : ℝ))
        Filter.atTop (nhds L))
      ∧ ∀ n : ℕ, |s.mu - beliefStar s.pi_sensory s.pi_prior o s.eta|
          ≤ |AIA.beliefSeq o s n - beliefStar s.pi_sensory s.pi_prior o s.eta| := by
  refine ⟨?_, beliefSeq_deviation_lower o s hdt hstab⟩
  intro L hL
  have hL1 : Filter.Tendsto (fun n => ((AIA.beliefSeq o s (n + 1) : ℚ) : ℝ))
      Filter.atTop (nhds L) := hL.comp (Filter.tendsto_add_atTop_nat 1)
  have hsub : Filter.Tendsto
      (fun n => ((AIA.beliefSeq o s (n + 1) : ℚ) : ℝ) - ((AIA.beliefSeq o s n : ℚ) : ℝ))
      Filter.atTop (nhds 0) := by
    have := hL1.sub hL
    rwa [sub_self] at this
  have he0 : s.mu - beliefStar s.pi_sensory s.pi_prior o s.eta ≠ 0 :=
    sub_ne_zero.2 hne
  have hpos : (0 : ℝ) < 2 * |((s.mu - beliefStar s.pi_sensory s.pi_prior o s.eta : ℚ) : ℝ)| := by
    have : ((s.mu - beliefStar s.pi_sensory s.pi_prior o s.eta : ℚ) : ℝ) ≠ 0 := by
      exact_mod_cast he0
    positivity
  obtain ⟨N, hN⟩ := Metric.tendsto_atTop.mp hsub
    (2 * |((s.mu - beliefStar s.pi_sensory s.pi_prior o s.eta : ℚ) : ℝ)|) hpos
  have hclose := hN N le_rfl
  rw [Real.dist_eq, sub_zero] at hclose
  have hfar : 2 * |((s.mu - beliefStar s.pi_sensory s.pi_prior o s.eta : ℚ) : ℝ)|
      ≤ |((AIA.beliefSeq o s (N + 1) : ℚ) : ℝ) - ((AIA.beliefSeq o s N : ℚ) : ℝ)| := by
    have h := beliefSeq_gap_lower o s hdt hstab N
    push_cast
    exact_mod_cast h
  linarith

/-- A concrete first-implementation agent sitting exactly on the
divergence boundary: step size 0.01, sensory precision 200, prior
precision 0. -/
def agentC4w : AIA.Agent :=
  { mu := 1, eta := 1, pi_prior_base := 0, pi_sensory_base := 200,
    pi_prior := 0, pi_sensory := 200, dt := 1 / 100,
    observation := none, history := [] }

/-- Claim C4, witness: the amended divergence theorem instantiated at
`agentC4w` with observation 0 (the fixed point is 0, the belief starts
at 1). -/
theorem divergence_unclamped_witness :
    (0 < agentC4w.dt ∧ 2 ≤ agentC4w.dt * (agentC4w.pi_prior + agentC4w.pi_sensory)
        ∧ agentC4w.mu ≠ beliefStar agentC4w.pi_sensory agentC4w.pi_prior 0 agentC4w.eta)
      ∧ ((∀ L : ℝ, ¬ Filter.Tendsto (fun n => ((AIA.beliefSeq 0 agentC4w n : ℚ) : ℝ))
            Filter.atTop (nhds L))
          ∧ ∀ n : ℕ, |agentC4w.mu - beliefStar agentC4w.pi_sensory agentC4w.pi_prior 0 agentC4w.eta|
              ≤ |AIA.beliefSeq 0 agentC4w n
                  - beliefStar agentC4w.pi_sensory agentC4w.pi_prior 0 agentC4w.eta|) :=
  ⟨⟨by norm_num [agentC4w], by norm_num [agentC4w],
      by norm_num [agentC4w, beliefStar]⟩,
    divergence_unclamped 0 agentC4w (by norm_num [agentC4w])
      (by norm_num [agentC4w]) (by norm_num [agentC4w, beliefStar])⟩
